import Mathlib

set_option linter.unusedVariables false

namespace Jsonrpcli

/-- A model of `serde_json::Value`: a JSON document.  Objects are modelled as
ordered association lists of members; numbers are modelled as integers (no
claim concerns fractional values). -/
inductive Json where
  | null
  | bool (b : Bool)
  | num (n : Int)
  | str (s : String)
  | arr (elems : List Json)
  | obj (members : List (String × Json))
deriving Repr

mutual

/-- Decidable equality on JSON documents (structural, as `serde_json::Value`'s
`PartialEq`). -/
def Json.decEq : (a b : Json) → Decidable (a = b)
  | .null, .null => isTrue rfl
  | .bool a, .bool b =>
    match Bool.decEq a b with
    | isTrue h => isTrue (h ▸ rfl)
    | isFalse h => isFalse (fun hh => h (by injection hh))
  | .num a, .num b =>
    match Int.decEq a b with
    | isTrue h => isTrue (h ▸ rfl)
    | isFalse h => isFalse (fun hh => h (by injection hh))
  | .str a, .str b =>
    match String.decEq a b with
    | isTrue h => isTrue (h ▸ rfl)
    | isFalse h => isFalse (fun hh => h (by injection hh))
  | .arr a, .arr b =>
    match Json.decEqList a b with
    | isTrue h => isTrue (h ▸ rfl)
    | isFalse h => isFalse (fun hh => h (by injection hh))
  | .obj a, .obj b =>
    match Json.decEqObj a b with
    | isTrue h => isTrue (h ▸ rfl)
    | isFalse h => isFalse (fun hh => h (by injection hh))
  | .null, .bool _ | .null, .num _ | .null, .str _ | .null, .arr _ | .null, .obj _
  | .bool _, .null | .bool _, .num _ | .bool _, .str _ | .bool _, .arr _ | .bool _, .obj _
  | .num _, .null | .num _, .bool _ | .num _, .str _ | .num _, .arr _ | .num _, .obj _
  | .str _, .null | .str _, .bool _ | .str _, .num _ | .str _, .arr _ | .str _, .obj _
  | .arr _, .null | .arr _, .bool _ | .arr _, .num _ | .arr _, .str _ | .arr _, .obj _
  | .obj _, .null | .obj _, .bool _ | .obj _, .num _ | .obj _, .str _ | .obj _, .arr _ =>
    isFalse (by intro h; exact Json.noConfusion h)

def Json.decEqList : (a b : List Json) → Decidable (a = b)
  | [], [] => isTrue rfl
  | [], _ :: _ => isFalse (by intro h; exact List.noConfusion h)
  | _ :: _, [] => isFalse (by intro h; exact List.noConfusion h)
  | x :: xs, y :: ys =>
    match Json.decEq x y, Json.decEqList xs ys with
    | isTrue h1, isTrue h2 => isTrue (h1 ▸ h2 ▸ rfl)
    | isFalse h1, _ => isFalse (fun hh => h1 (by injection hh))
    | _, isFalse h2 => isFalse (fun hh => h2 (by injection hh))

def Json.decEqObj : (a b : List (String × Json)) → Decidable (a = b)
  | [], [] => isTrue rfl
  | [], _ :: _ => isFalse (by intro h; exact List.noConfusion h)
  | _ :: _, [] => isFalse (by intro h; exact List.noConfusion h)
  | (k, v) :: xs, (l, w) :: ys =>
    match String.decEq k l, Json.decEq v w, Json.decEqObj xs ys with
    | isTrue h0, isTrue h1, isTrue h2 => isTrue (h0 ▸ h1 ▸ h2 ▸ rfl)
    | isFalse h0, _, _ =>
      isFalse (fun hh => h0 (by injection hh with h3 h4; exact congrArg Prod.fst h3))
    | _, isFalse h1, _ =>
      isFalse (fun hh => h1 (by injection hh with h3 h4; exact congrArg Prod.snd h3))
    | _, _, isFalse h2 => isFalse (fun hh => h2 (by injection hh))

end

instance : DecidableEq Json := Json.decEq

instance {ε α : Type} [DecidableEq ε] [DecidableEq α] :
    DecidableEq (Except ε α) := fun a b =>
  match a, b with
  | .ok x, .ok y =>
    match inferInstanceAs (Decidable (x = y)) with
    | isTrue h => isTrue (h ▸ rfl)
    | isFalse h => isFalse (fun hh => h (by injection hh))
  | .error x, .error y =>
    match inferInstanceAs (Decidable (x = y)) with
    | isTrue h => isTrue (h ▸ rfl)
    | isFalse h => isFalse (fun hh => h (by injection hh))
  | .ok _, .error _ => isFalse (by intro h; exact Except.noConfusion h)
  | .error _, .ok _ => isFalse (by intro h; exact Except.noConfusion h)

/-- Looks up the value of the member named `key` in a JSON object's member
list, as serde's map-access does when deserializing a struct field. -/
def lookupKey (members : List (String × Json)) (key : String) : Option Json :=
  (members.find? (fun p => p.1 = key)).map (·.2)

/-- Model of serde's decoding of an `Option` from a JSON value: `null`
decodes to `none`, anything else delegates to the inner deserializer. -/
def decodeOption (f : Json → Except String α) : Json → Except String (Option α)
  | .null => .ok none
  | j => (f j).map some

/-- Model of the source's `deserialize_some` applied to a present member:
the decoded `Option` is wrapped in `some`, so a member that is present with
value `null` becomes `some none` while a present value `v` becomes
`some (some v)`.  (An absent member never reaches this function.) -/
def deserializeSome (f : Json → Except String α) (j : Json) :
    Except String (Option (Option α)) :=
  (decodeOption f j).map some

/-- Extraction of a required struct field, as serde's derived struct
deserializer does: absent means a missing-field error. -/
def requireField (members : List (String × Json)) (key : String) :
    Except String Json :=
  match lookupKey members key with
  | some j => .ok j
  | none => .error ("missing field `" ++ key ++ "`")

/-- Decoding a JSON value as a Rust `String`. -/
def decodeString : Json → Except String String
  | .str s => .ok s
  | _ => .error "invalid type: expected a string"

/-- Decoding a JSON value as an `i64` (codes are modelled as unbounded
integers; no claim concerns the 64-bit bounds). -/
def decodeInt : Json → Except String Int
  | .num n => .ok n
  | _ => .error "invalid type: expected i64"

/-- Witness of the literal string "2.0" (`struct V2` in the source). -/
structure V2 where
deriving Repr, DecidableEq

/-- Deserializer of `V2`: accepts exactly the JSON string "2.0"; any other
string is an invalid-value error and a non-string is a type error. -/
def V2.deserialize : Json → Except String V2
  | .str "2.0" => .ok {}
  | .str other => .error ("invalid value: string " ++ other ++ ", expected 2.0")
  | _ => .error "invalid type: expected a string"

/-- Request/response identifier (`enum Id`): a string, a number, or null. -/
inductive Id where
  | string (s : String)
  | number (n : Int)
  | null
deriving Repr, DecidableEq

/-- Untagged deserializer of `Id`, with the source's `expecting` message for
shapes that match no variant. -/
def Id.deserialize : Json → Except String Id
  | .str s => .ok (.string s)
  | .num n => .ok (.number n)
  | .null => .ok .null
  | _ => .error "a string, a number, or null"

/-- Untagged serializer of `Id`. -/
def Id.serialize : Id → Json
  | .string s => .str s
  | .number n => .num n
  | .null => .null

/-- Parameters of a request (`enum RequestParameters`): by-position through
an array or by-name through an object. -/
inductive RequestParameters where
  | ByPosition (values : List Json)
  | ByName (values : List (String × Json))
deriving Repr, DecidableEq

/-- Untagged deserializer of `RequestParameters`: an array is by-position, an
object is by-name, and any other shape produces the source's `expecting`
message (which misspells "paramaters"). -/
def RequestParameters.deserialize : Json → Except String RequestParameters
  | .arr it => .ok (.ByPosition it)
  | .obj it => .ok (.ByName it)
  | _ => .error "an `Array` of by-position paramaters, or an `Object` of by-name parameters"

/-- Untagged serializer of `RequestParameters`. -/
def RequestParameters.serialize : RequestParameters → Json
  | .ByPosition it => .arr it
  | .ByName it => .obj it

/-- A JSON-RPC 2.0 request object (`struct Request`). -/
structure Request where
  jsonrpc : V2
  method : String
  params : Option RequestParameters
  id : Option Id
deriving Repr, DecidableEq

/-- Predicate from the source: a request with no `id` is a notification. -/
def Request.is_notification (r : Request) : Bool :=
  r.id.isNone

/-- Deserializer of `Request` (src/jsonrpc_types.rs:79-116): decode through a
`Helper` struct whose `params` and `id` members use `deserialize_some` to
distinguish absent / present-null / present-value, then map present-null
`params` leniently to no parameters, and present-null `id` to `Id::Null`. -/
def Request.deserialize : Json → Except String Request
  | .obj members => do
    let jv ← requireField members "jsonrpc"
    let jsonrpc ← V2.deserialize jv
    let mv ← requireField members "method"
    let method ← decodeString mv
    let params ← match lookupKey members "params" with
      | some j => deserializeSome RequestParameters.deserialize j
      | none => Except.ok none
    let id ← match lookupKey members "id" with
      | some j => deserializeSome Id.deserialize j
      | none => Except.ok none
    let params' : Option RequestParameters := match params with
      | some (some p) => some p
      | some none => none
      | none => none
    let id' : Option Id := match id with
      | some (some i) => some i
      | some none => some Id.null
      | none => none
    Except.ok { jsonrpc := jsonrpc, method := method, params := params', id := id' }
  | _ => .error "invalid type: expected struct Request"

/-- Derived serializer of `Request`: `params` and `id` members are skipped
entirely when `none` (`skip_serializing_if = "Option::is_none"`). -/
def Request.serialize (r : Request) : Json :=
  .obj ([("jsonrpc", .str "2.0"), ("method", .str r.method)]
    ++ (match r.params with
        | some p => [("params", p.serialize)]
        | none => [])
    ++ (match r.id with
        | some i => [("id", i.serialize)]
        | none => []))

/-- A JSON-RPC 2.0 error object (`struct Error`). -/
structure Error where
  code : Int
  message : String
  data : Option Json
deriving Repr, DecidableEq

/-- Deserializer of `Error` (src/jsonrpc_types.rs:373-400): `data` is
three-state decoded, mapping a present-null member to `some Json.null`. -/
def Error.deserialize : Json → Except String Error
  | .obj members => do
    let cv ← requireField members "code"
    let code ← decodeInt cv
    let mv ← requireField members "message"
    let message ← decodeString mv
    let data ← match lookupKey members "data" with
      | some j => deserializeSome (fun v => Except.ok v) j
      | none => Except.ok none
    let data' : Option Json := match data with
      | some (some v) => some v
      | some none => some Json.null
      | none => none
    Except.ok { code := code, message := message, data := data' }
  | _ => .error "invalid type: expected struct Error"

/-- Derived serializer of `Error`: `data` is skipped when `none`, and a
present `data` serializes its inner value directly (so `some Json.null`
serializes as a `null` member). -/
def Error.serialize (e : Error) : Json :=
  .obj ([("code", .num e.code), ("message", .str e.message)]
    ++ (match e.data with
        | some v => [("data", v)]
        | none => []))

/-- A JSON-RPC 2.0 response object (`struct Response`): `result` holds
either the success value or the error object. -/
structure Response where
  jsonrpc : V2
  result : Except Error Json
  id : Id
deriving Repr, DecidableEq


/-- Deserializer of `Response` via `RawResponseDeSer`
(src/jsonrpc_types.rs:227-303).  `result` uses `deserialize_some`
(three-state), while `error` is a plain defaulted `Option`, so an `error`
member that is present with value `null` decodes to `none`.  The mutual
exclusion of `result` and `error` is then enforced with the source's two
custom error messages, and an absent-or-null success payload defaults to
`Json.null` (`ok.unwrap_or_default()`). -/
def Response.deserialize : Json → Except String Response
  | .obj members => do
    let jv ← requireField members "jsonrpc"
    let jsonrpc ← V2.deserialize jv
    let result ← match lookupKey members "result" with
      | some j => deserializeSome (fun v => Except.ok v) j
      | none => Except.ok none
    let error ← match lookupKey members "error" with
      | some j => decodeOption Error.deserialize j
      | none => Except.ok none
    let iv ← requireField members "id"
    let id ← Id.deserialize iv
    match result, error with
    | some ok, none =>
      .ok { jsonrpc := jsonrpc, result := .ok (ok.getD .null), id := id }
    | none, some err => .ok { jsonrpc := jsonrpc, result := .error err, id := id }
    | some _, some _ => .error "only ONE of `error` and `result` may be present"
    | none, none => .error "must have an `error` or `result` member"
  | _ => .error "invalid type: expected struct RawResponseDeSer"

/-- Serializer of `Response` via `RawResponseDeSer`
(src/jsonrpc_types.rs:247-273).  `RawResponseDeSer` derives `Serialize`
with no skip attributes, so all four members are always emitted: a success
response carries an `error: null` member and an error response carries a
`result: null` member. -/
def Response.serialize (r : Response) : Json :=
  match r.result with
  | .ok result =>
    .obj [("jsonrpc", .str "2.0"), ("result", result), ("error", Json.null),
          ("id", r.id.serialize)]
  | .error error =>
    .obj [("jsonrpc", .str "2.0"), ("result", Json.null),
          ("error", error.serialize), ("id", r.id.serialize)]

/-- An example value from the `openrpc_types` crate as the source consumes
it: either an embedded literal JSON value or an external reference (a
pointer to a value that is not available locally). -/
inductive ExampleValue where
  | Embedded (value : Json)
  | External (reference : String)
deriving Repr, DecidableEq

/-- An example from the `openrpc_types` crate, restricted to the two members
this program ever reads or writes (its `summary`, `description` and
`extensions` members are always absent or default here). -/
structure Example where
  name : Option String
  value : ExampleValue
deriving Repr, DecidableEq

/-- A captured pairing of a method call and its observed result, the record
format written by the capture proxy and read back by the replay engine. -/
structure ExamplePairing where
  name : String
  params : List Example
  result : Option Example
deriving Repr, DecidableEq

/-- Conversion of a request's parameters into the pairing's example list
(src/bin/proxy.rs:65-93): by-position values keep their order and carry no
name, by-name values keep their names, and absent parameters give an empty
list. -/
def embedParams : Option RequestParameters → List Example
  | some (.ByPosition it) =>
    it.map fun v => { name := none, value := .Embedded v }
  | some (.ByName it) =>
    it.map fun nv => { name := some nv.1, value := .Embedded nv.2 }
  | none => []

/-- Pure core of the capture proxy's per-exchange behaviour
(src/bin/proxy.rs:45-108) once both bodies are buffered: the first
component is the list of pairings written to the side channel (one pairing
when both bodies decode and the response carries a success value, none
otherwise), and the second component is the body relayed to the original
caller, which is always exactly the upstream response body. -/
def proxyCapture (reqBody respBody : Json) : List ExamplePairing × Json :=
  let pairings :=
    match Request.deserialize reqBody, Response.deserialize respBody with
    | .ok req, .ok resp =>
      match resp.result with
      | .ok result =>
        [{ name := req.method,
           params := embedParams req.params,
           result := some { name := none, value := .Embedded result } }]
      | .error _ => []
    | _, _ => []
  (pairings, respBody)

/-- Conversion of a pairing's params into plain JSON values for replaying
(src/bin/repro.rs:32-40): stops at the first external reference with the
source's bail message. -/
def convertParams : List Example → Except String (List Json)
  | [] => .ok []
  | e :: rest =>
    match e.value with
    | .External _ => .error "unexpected external example value"
    | .Embedded v => (convertParams rest).map (v :: ·)

/-- The request the replay engine issues for a pairing
(src/bin/repro.rs:28-43): the pairing's method, the converted values as
by-position parameters, and an explicit null id. -/
def replayRequest (method : String) (args : List Json) : Request :=
  { jsonrpc := {}, method := method,
    params := some (.ByPosition args), id := some .null }

/-- Observable outcome of a replay run: the mismatch diagnostics printed to
stderr in input order, the requests actually sent to the target endpoint,
and the fatal error message when the run aborted (`none` when the run was
not aborted). -/
structure ReplayOutcome where
  diags : List String
  sent : List Request
  fatal : Option String
deriving Repr, DecidableEq

/-- Processing of a single pairing by the replay engine's loop body
(src/bin/repro.rs:16-52).  A pairing whose `result` member is absent, or
present but holding an external reference, fails the `if let` pattern and is
skipped outright; otherwise the parameters are converted (bailing on an
external reference before any request is sent), the request is posted to the
target, and the decoded response is checked against the recorded result. -/
def replayOne (server : Request → Except String Response)
    (p : ExamplePairing) : ReplayOutcome :=
  match p.result with
  | some ⟨_, .Embedded expected_result⟩ =>
    match convertParams p.params with
    | .error e => { diags := [], sent := [], fatal := some e }
    | .ok args =>
      let req := replayRequest p.name args
      match server req with
      | .error e => { diags := [], sent := [req], fatal := some e }
      | .ok response =>
        match response.result with
        | .ok actual_result =>
          if expected_result = actual_result then
            { diags := [], sent := [req], fatal := none }
          else
            { diags := ["mismatch for " ++ p.name], sent := [req], fatal := none }
        | .error e =>
          { diags := [], sent := [req],
            fatal := some ("error for " ++ p.name ++ ": " ++ e.message) }
  | _ => { diags := [], sent := [], fatal := none }

/-- The replay engine's main loop (src/bin/repro.rs:15-53) over its input
stream of pairings, modelled with the live server as a function from the
issued request to the decoded response (a transport or decode failure being
an `Except.error`, which the `?` operators in the source make fatal):
pairings are processed strictly in order and the run stops at the first
fatal condition. -/
def replayRun (server : Request → Except String Response) :
    List ExamplePairing → ReplayOutcome
  | [] => { diags := [], sent := [], fatal := none }
  | p :: rest =>
    let o := replayOne server p
    match o.fatal with
    | some _ => o
    | none =>
      let o' := replayRun server rest
      { diags := o.diags ++ o'.diags, sent := o.sent ++ o'.sent,
        fatal := o'.fatal }

/-- Test for the presence of an external-reference value among a pairing's
params, used to state the replay claims. -/
def hasExternalParam (ps : List Example) : Bool :=
  ps.any fun e =>
    match e.value with
    | .External _ => true
    | .Embedded _ => false

/-- Request-shaped JSON object with the mandatory version and method members
and an optional `params` member, used to state the parameter claims. -/
def requestObj (m : String) (params : Option Json) : Json :=
  .obj ([("jsonrpc", Json.str "2.0"), ("method", Json.str m)]
    ++ (match params with
        | some v => [("params", v)]
        | none => []))

/-- Request-shaped JSON object with the mandatory version and method members
and an optional `id` member, used to state the identifier claims. -/
def requestObjWithId (m : String) (id : Option Json) : Json :=
  .obj ([("jsonrpc", Json.str "2.0"), ("method", Json.str m)]
    ++ (match id with
        | some v => [("id", v)]
        | none => []))

/-- Response-shaped JSON object with optional `result` and `error` members
and a null id, used to state the mutual-exclusion claims. -/
def responseObj (result : Option Json) (error : Option Json) : Json :=
  .obj ([("jsonrpc", Json.str "2.0")]
    ++ (match result with
        | some v => [("result", v)]
        | none => [])
    ++ (match error with
        | some v => [("error", v)]
        | none => [])
    ++ [("id", Json.null)])

/-- A live server stub for the replay examples: it answers every request
with the success value `1`. -/
def constServer : Request → Except String Response :=
  fun _ => .ok { jsonrpc := {}, result := .ok (.num 1), id := .null }

/-- A live server stub for the replay examples: it answers every request
with a JSON-RPC error object whose message is "boom". -/
def errServer : Request → Except String Response :=
  fun _ =>
    .ok { jsonrpc := {},
          result := .error { code := 1, message := "boom", data := none },
          id := .null }

/-- A live server stub for the replay examples: it answers every request
with the success value `2`. -/
def mismatchServer : Request → Except String Response :=
  fun _ => .ok { jsonrpc := {}, result := .ok (.num 2), id := .null }

/-- A pairing whose recorded result is an external reference. -/
def extResultPairing : ExamplePairing :=
  { name := "m1", params := [],
    result := some { name := none, value := .External "ref" } }

/-- A pairing with one embedded by-position parameter `7` and the embedded
recorded result `1`. -/
def okPairing : ExamplePairing :=
  { name := "m2", params := [{ name := none, value := .Embedded (.num 7) }],
    result := some { name := none, value := .Embedded (.num 1) } }

/-- The request body of the capture example from the specification:
a `ping` call with empty positional params and id 5. -/
def pingBody : Json :=
  .obj [("jsonrpc", .str "2.0"), ("method", .str "ping"),
        ("params", .arr []), ("id", .num 5)]

/-- The response body of the capture example from the specification:
success value "pong" with id 5. -/
def pongBody : Json :=
  .obj [("jsonrpc", .str "2.0"), ("result", .str "pong"), ("id", .num 5)]

/-- An error response value used to exercise the round-trip property: the
standard parse error with a null id. -/
def parseErrorResponse : Response :=
  { jsonrpc := {},
    result := .error { code := -32700, message := "Parse error", data := none },
    id := .null }

/-- Three-state decoding of a member whose payload type accepts every JSON
value (as `Option<Option<Value>>` does for `result` and `data`): a present
member always decodes, to `some none` when null and `some (some j)`
otherwise. -/
theorem deserializeSome_value (j : Json) :
    deserializeSome (fun v => Except.ok v) j =
      .ok (some (if j = Json.null then none else some j)) := by
  cases j <;> simp [deserializeSome, decodeOption, Except.map]

/-- Recovery of the payload from the three-state decoding of the previous
lemma: null collapses back to null via `unwrap_or_default`. -/
theorem getD_threeState (j : Json) :
    (if j = Json.null then (none : Option Json) else some j).getD Json.null = j := by
  by_cases h : j = Json.null <;> simp [h]

/-- A parameter list containing an external reference makes the replay
engine's parameter conversion fail with the source's bail message. -/
theorem convertParams_external (ps : List Example)
    (h : hasExternalParam ps = true) :
    convertParams ps = .error "unexpected external example value" := by
  induction ps with
  | nil => simp [hasExternalParam] at h
  | cons e rest ih =>
    obtain ⟨n, v⟩ := e
    cases v with
    | Embedded w =>
      have hr : hasExternalParam rest = true := by
        simpa [hasExternalParam] using h
      simp [convertParams, ih hr, Except.map]
    | External r => simp [convertParams]

/-- Requests round-trip: decoding the encoding of any `Request` value gives
the value back (the explicit null id survives because `Id::Null` encodes as
a present `id: null` member, which decodes back to `Some(Id::Null)`). -/
theorem request_roundtrip (r : Request) :
    Request.deserialize (Request.serialize r) = .ok r := by
  obtain ⟨⟨⟩, m, params, id⟩ := r
  rcases params with _ | (xs | kvs) <;> rcases id with _ | (s | n | _) <;> rfl

/-- Errors round-trip: decoding the encoding of any `Error` value gives the
value back, including a `data` member that is a present null. -/
theorem error_roundtrip (e : Error) :
    Error.deserialize (Error.serialize e) = .ok e := by
  obtain ⟨c, msg, data⟩ := e
  rcases data with _ | v
  · rfl
  · cases v <;> rfl

/-- Success responses round-trip: the spurious `error: null` member that
`Response::serialize` emits is conflated with an absent `error` when the
encoding is decoded again, so the original value is recovered. -/
theorem response_ok_roundtrip (v : Json) (i : Id) :
    Response.deserialize
        (Response.serialize { jsonrpc := {}, result := .ok v, id := i }) =
      .ok { jsonrpc := {}, result := .ok v, id := i } := by
  cases v <;> cases i <;> rfl

/-- C1: counterexample.  Decoding a Response object with BOTH the `result`
and the `error` key present does not always fail: the `error` member is not
three-state checked, so `error` present with value `null` is conflated with
an absent `error`, and this object carrying both keys decodes successfully.
This refutes both "fails when both keys are present" and "the two keys are
each checked for presence independently". -/
theorem response_both_keys_counterexample :
    Response.deserialize (Json.obj [("jsonrpc", Json.str "2.0"),
        ("result", Json.num 1), ("error", Json.null), ("id", Json.null)]) =
      .ok { jsonrpc := {}, result := .ok (Json.num 1), id := .null } := by
  decide

/-- C1 (amended): `result` is checked for presence three-state, but `error`
is decoded as a plain defaulted optional, so `error: null` counts as absent.
With `result` present (any value, null included): a present decodable
`error` object fails with the mutual-exclusion message — in particular
`result: null` alongside a present `error` still violates mutual exclusion —
while `error` absent or null succeeds with the `result` payload.  With
`result` absent: `error` absent or null fails with the missing-member
message, while a present decodable `error` object succeeds as an error
response. -/
theorem response_result_error_presence (rv : Json)
    (emems : List (String × Json)) (e : Error)
    (he : Error.deserialize (Json.obj emems) = .ok e) :
    Response.deserialize (responseObj (some rv) (some (Json.obj emems))) =
      .error "only ONE of `error` and `result` may be present"
  ∧ Response.deserialize (responseObj none none) =
      .error "must have an `error` or `result` member"
  ∧ Response.deserialize (responseObj none (some Json.null)) =
      .error "must have an `error` or `result` member"
  ∧ Response.deserialize (responseObj (some rv) none) =
      .ok { jsonrpc := {}, result := .ok rv, id := .null }
  ∧ Response.deserialize (responseObj (some rv) (some Json.null)) =
      .ok { jsonrpc := {}, result := .ok rv, id := .null }
  ∧ Response.deserialize (responseObj none (some (Json.obj emems))) =
      .ok { jsonrpc := {}, result := .error e, id := .null } := by
  refine ⟨?_, rfl, rfl, ?_, ?_, ?_⟩
  · show Except.bind (deserializeSome (fun v => Except.ok v) rv) _ = _
    rw [deserializeSome_value]
    show Except.bind ((Error.deserialize (Json.obj emems)).map some) _ = _
    rw [he]
    rfl
  · cases rv <;> rfl
  · cases rv <;> rfl
  · show Except.bind ((Error.deserialize (Json.obj emems)).map some) _ = _
    rw [he]
    rfl

/-- C9: a Response object whose `result` key is present with value null and
whose `error` key is absent decodes successfully to a success result whose
value is JSON null, for every decodable `id`. -/
theorem response_result_null_success (idj : Json) (i : Id)
    (hid : Id.deserialize idj = .ok i) :
    Response.deserialize (Json.obj [("jsonrpc", Json.str "2.0"),
        ("result", Json.null), ("id", idj)]) =
      .ok { jsonrpc := {}, result := .ok Json.null, id := i } := by
  show Except.bind (Id.deserialize idj) _ = _
  rw [hid]
  rfl

/-- C9 witness: the general theorem applied at the concrete id 5. -/
theorem response_result_null_success_witness :
    Id.deserialize (Json.num 5) = .ok (Id.number 5)
  ∧ Response.deserialize (Json.obj [("jsonrpc", Json.str "2.0"),
        ("result", Json.null), ("id", Json.num 5)]) =
      .ok { jsonrpc := {}, result := .ok Json.null, id := .number 5 } :=
  ⟨rfl, response_result_null_success (Json.num 5) (Id.number 5) rfl⟩

/-- C1 witness: the amended theorem applied at the concrete success payload
`1` and the concrete error object with code 2 and message "x". -/
theorem response_result_error_presence_witness :
    Error.deserialize (Json.obj [("code", Json.num 2), ("message", Json.str "x")]) =
      .ok { code := 2, message := "x", data := none }
  ∧ Response.deserialize (responseObj (some (Json.num 1))
        (some (Json.obj [("code", Json.num 2), ("message", Json.str "x")]))) =
      .error "only ONE of `error` and `result` may be present" :=
  ⟨rfl, (response_result_error_presence (Json.num 1)
    [("code", Json.num 2), ("message", Json.str "x")]
    { code := 2, message := "x", data := none } rfl).1⟩

/-- C2: an absent `id` member yields a notification; a present `id: null`
yields the explicit `Id.null` identifier and is not a notification; a
present string or number id decodes to the matching variant; and any other
present id value fails with the id type-error message. -/
theorem request_id_absent_vs_null (m : String) :
    Request.deserialize (requestObjWithId m none) =
      .ok { jsonrpc := {}, method := m, params := none, id := none }
  ∧ Request.is_notification
      { jsonrpc := {}, method := m, params := none, id := none } = true
  ∧ Request.deserialize (requestObjWithId m (some Json.null)) =
      .ok { jsonrpc := {}, method := m, params := none, id := some Id.null }
  ∧ Request.is_notification
      { jsonrpc := {}, method := m, params := none, id := some Id.null } = false
  ∧ (∀ s, Request.deserialize (requestObjWithId m (some (Json.str s))) =
      .ok { jsonrpc := {}, method := m, params := none, id := some (Id.string s) })
  ∧ (∀ n, Request.deserialize (requestObjWithId m (some (Json.num n))) =
      .ok { jsonrpc := {}, method := m, params := none, id := some (Id.number n) })
  ∧ (∀ j, j ≠ Json.null → (∀ s, j ≠ Json.str s) → (∀ n, j ≠ Json.num n) →
      Request.deserialize (requestObjWithId m (some j)) =
        .error "a string, a number, or null") := by
  refine ⟨rfl, rfl, rfl, rfl, fun s => rfl, fun n => rfl, fun j h1 h2 h3 => ?_⟩
  cases j with
  | null => exact absurd rfl h1
  | str s => exact absurd rfl (h2 s)
  | num n => exact absurd rfl (h3 n)
  | bool b => rfl
  | arr xs => rfl
  | obj kvs => rfl

/-- C2 witness: the general theorem applied at the concrete method "m", with
the type-error conjunct discharged at the concrete id value `true`. -/
theorem request_id_absent_vs_null_witness :
    Request.deserialize (requestObjWithId "m" none) =
      .ok { jsonrpc := {}, method := "m", params := none, id := none }
  ∧ Request.deserialize (requestObjWithId "m" (some Json.null)) =
      .ok { jsonrpc := {}, method := "m", params := none, id := some Id.null }
  ∧ Request.deserialize (requestObjWithId "m" (some (Json.bool true))) =
      .error "a string, a number, or null" :=
  ⟨(request_id_absent_vs_null "m").1,
   (request_id_absent_vs_null "m").2.2.1,
   (request_id_absent_vs_null "m").2.2.2.2.2.2 (Json.bool true)
     (by decide) (fun s h => Json.noConfusion h) (fun n h => Json.noConfusion h)⟩

/-- C3: counterexample.  A `params` member of a scalar type is indeed a
decode error, but its message is the source's `expecting` string — which
has backticks around `Array`/`Object` and misspells "paramaters", and does
not begin with "expected" — so the message quoted by the claim is not the
message produced. -/
theorem request_params_message_counterexample :
    Request.deserialize (Json.obj [("jsonrpc", Json.str "2.0"),
        ("method", Json.str "m"), ("params", Json.str "x")]) =
      .error "an `Array` of by-position paramaters, or an `Object` of by-name parameters"
  ∧ "an `Array` of by-position paramaters, or an `Object` of by-name parameters" ≠
      "expected an Array of by-position parameters, or an Object of by-name parameters" :=
  ⟨rfl, by decide⟩

/-- C3 (amended): a `params` member given as a JSON array always decodes as
by-position parameters, an object always as by-name parameters, an absent
`params` and a present `params: null` both yield no parameters, and any
other `params` shape fails with the source's descriptive message (the
source's exact `expecting` string, with its backticks and its "paramaters"
misspelling). -/
theorem request_params_shape (m : String) :
    (∀ xs, Request.deserialize (requestObj m (some (Json.arr xs))) =
      .ok { jsonrpc := {}, method := m,
            params := some (.ByPosition xs), id := none })
  ∧ (∀ kvs, Request.deserialize (requestObj m (some (Json.obj kvs))) =
      .ok { jsonrpc := {}, method := m,
            params := some (.ByName kvs), id := none })
  ∧ Request.deserialize (requestObj m none) =
      .ok { jsonrpc := {}, method := m, params := none, id := none }
  ∧ Request.deserialize (requestObj m (some Json.null)) =
      .ok { jsonrpc := {}, method := m, params := none, id := none }
  ∧ (∀ j, j ≠ Json.null → (∀ xs, j ≠ Json.arr xs) → (∀ kvs, j ≠ Json.obj kvs) →
      Request.deserialize (requestObj m (some j)) =
        .error "an `Array` of by-position paramaters, or an `Object` of by-name parameters") := by
  refine ⟨fun xs => rfl, fun kvs => rfl, rfl, rfl, fun j h1 h2 h3 => ?_⟩
  cases j with
  | null => exact absurd rfl h1
  | arr xs => exact absurd rfl (h2 xs)
  | obj kvs => exact absurd rfl (h3 kvs)
  | bool b => rfl
  | num n => rfl
  | str s => rfl

/-- C3 witness: the amended theorem applied at the concrete method "m", the
concrete array `[1]`, the concrete object `{"a": 1}`, and the concrete
scalar params value `"x"`. -/
theorem request_params_shape_witness :
    Request.deserialize (requestObj "m" (some (Json.arr [Json.num 1]))) =
      .ok { jsonrpc := {}, method := "m",
            params := some (.ByPosition [Json.num 1]), id := none }
  ∧ Request.deserialize (requestObj "m" (some (Json.obj [("a", Json.num 1)]))) =
      .ok { jsonrpc := {}, method := "m",
            params := some (.ByName [("a", Json.num 1)]), id := none }
  ∧ Request.deserialize (requestObj "m" (some Json.null)) =
      .ok { jsonrpc := {}, method := "m", params := none, id := none }
  ∧ Request.deserialize (requestObj "m" (some (Json.str "x"))) =
      .error "an `Array` of by-position paramaters, or an `Object` of by-name parameters" :=
  ⟨(request_params_shape "m").1 [Json.num 1],
   (request_params_shape "m").2.1 [("a", Json.num 1)],
   (request_params_shape "m").2.2.2.1,
   (request_params_shape "m").2.2.2.2 (Json.str "x")
     (by decide) (fun xs h => Json.noConfusion h) (fun kvs h => Json.noConfusion h)⟩

/-- C8: counterexample.  The decoder does not enforce non-emptiness of the
`method` member: a request whose `method` is the empty string decodes
successfully, so decoding it does produce a valid `Request` value. -/
theorem request_empty_method_counterexample :
    Request.deserialize (Json.obj [("jsonrpc", Json.str "2.0"),
        ("method", Json.str "")]) =
      .ok { jsonrpc := {}, method := "", params := none, id := none } := by
  decide

/-- C8 (amended): a decoded Request's `method` may be any string, the empty
string included; the data model places no non-emptiness constraint on it. -/
theorem request_method_any_string (m : String) :
    Request.deserialize (requestObj m none) =
      .ok { jsonrpc := {}, method := m, params := none, id := none } := rfl

/-- C4: the round-trip property fails for error responses.  Serializing an
error `Response` goes through `RawResponseDeSer`, which has no
skip-when-none attribute, so the wire object carries `result: null`
alongside the `error` member — in contradiction with the struct's own doc
comment ("This member MUST NOT exist if there was an error invoking the
method") — and the decoder then rejects that very object with the
mutual-exclusion error, so `decode(encode(x))` errors instead of returning
`x`. -/
theorem response_error_roundtrip_fails :
    Response.serialize parseErrorResponse =
      Json.obj [("jsonrpc", Json.str "2.0"), ("result", Json.null),
        ("error", Json.obj [("code", Json.num (-32700)),
          ("message", Json.str "Parse error")]),
        ("id", Json.null)]
  ∧ Response.deserialize (Response.serialize parseErrorResponse) =
      .error "only ONE of `error` and `result` may be present" := by
  constructor
  · rfl
  · rfl

/-- C5: counterexample.  A pairing whose recorded result is an external
reference is NOT rejected fatally: running the engine on it followed by an
ordinary pairing completes without a fatal condition, prints no diagnostic,
and still processes the subsequent pairing (a request is sent for it). -/
theorem replay_external_result_counterexample :
    (replayRun constServer [extResultPairing, okPairing]).fatal = none
  ∧ (replayRun constServer [extResultPairing, okPairing]).diags = []
  ∧ (replayRun constServer [extResultPairing, okPairing]).sent =
      [replayRequest "m2" [Json.num 7]] := by
  refine ⟨rfl, rfl, rfl⟩

/-- C5 (amended): a pairing whose embedded-result pattern matches but whose
params contain an external reference aborts the whole run fatally with the
bail message, before any request is sent and before any later pairing is
processed; but a pairing whose recorded result is itself an external
reference fails the engine's pattern match and is silently skipped, with
the run continuing on the remaining pairings. -/
theorem replay_external_handling (server : Request → Except String Response)
    (p : ExamplePairing) (rest : List ExamplePairing) :
    (∀ n0 expected, p.result = some ⟨n0, ExampleValue.Embedded expected⟩ →
      hasExternalParam p.params = true →
      replayRun server (p :: rest) =
        { diags := [], sent := [],
          fatal := some "unexpected external example value" })
  ∧ (∀ n0 r, p.result = some ⟨n0, ExampleValue.External r⟩ →
      replayRun server (p :: rest) = replayRun server rest) := by
  constructor
  · intro n0 expected hres hext
    simp [replayRun, replayOne, hres, convertParams_external _ hext]
  · intro n0 r hres
    simp [replayRun, replayOne, hres]

/-- C5 witness: the amended theorem applied to a concrete pairing with an
external-reference parameter (fatal bail) and to the concrete
external-result pairing (silent skip). -/
theorem replay_external_handling_witness :
    replayRun constServer
        [{ name := "m3",
           params := [{ name := none, value := ExampleValue.External "p" }],
           result := some { name := none, value := ExampleValue.Embedded (Json.num 1) } }] =
      { diags := [], sent := [],
        fatal := some "unexpected external example value" }
  ∧ replayRun constServer [extResultPairing] = replayRun constServer [] :=
  ⟨(replay_external_handling constServer _ []).1 none (Json.num 1) rfl rfl,
   (replay_external_handling constServer extResultPairing []).2 none "ref" rfl⟩

/-- C7: with a pairing the engine actually replays (embedded recorded
result, convertible params) and a live server that answers the issued
request, a response carrying a JSON-RPC error aborts the run with a fatal
message naming the method and the error's message text and processes no
subsequent pairing (nothing beyond this pairing's request is sent and no
diagnostic is printed), while a response carrying a success value different
from the recorded result prints one mismatch diagnostic naming the method
and continues with the remaining pairings. -/
theorem replay_error_fatal_mismatch_nonfatal
    (server : Request → Except String Response)
    (p : ExamplePairing) (rest : List ExamplePairing)
    (n0 : Option String) (expected : Json) (args : List Json) (resp : Response)
    (hres : p.result = some ⟨n0, ExampleValue.Embedded expected⟩)
    (hargs : convertParams p.params = .ok args)
    (hsrv : server (replayRequest p.name args) = .ok resp) :
    (∀ e, resp.result = .error e →
      replayRun server (p :: rest) =
        { diags := [], sent := [replayRequest p.name args],
          fatal := some ("error for " ++ p.name ++ ": " ++ e.message) })
  ∧ (∀ v, resp.result = .ok v → v ≠ expected →
      replayRun server (p :: rest) =
        { diags := ("mismatch for " ++ p.name) :: (replayRun server rest).diags,
          sent := replayRequest p.name args :: (replayRun server rest).sent,
          fatal := (replayRun server rest).fatal }) := by
  constructor
  · intro e hr
    simp [replayRun, replayOne, hres, hargs, hsrv, hr]
  · intro v hr hne
    have hne' : ¬(expected = v) := fun hh => hne hh.symm
    simp [replayRun, replayOne, hres, hargs, hsrv, hr, hne']

/-- C7 witness: the theorem applied to the concrete pairing `m2` against a
server answering with the error "boom" (fatal) and against a server
answering with the mismatching success value `2` (one diagnostic, run goes
on). -/
theorem replay_error_fatal_mismatch_nonfatal_witness :
    replayRun errServer [okPairing] =
      { diags := [], sent := [replayRequest "m2" [Json.num 7]],
        fatal := some "error for m2: boom" }
  ∧ replayRun mismatchServer [okPairing] =
      { diags := ["mismatch for m2"], sent := [replayRequest "m2" [Json.num 7]],
        fatal := none } := by
  constructor
  · have h := (replay_error_fatal_mismatch_nonfatal errServer okPairing []
      none (Json.num 1) [Json.num 7]
      { jsonrpc := {}, result := .error { code := 1, message := "boom", data := none },
        id := .null } rfl rfl rfl).1
      { code := 1, message := "boom", data := none } rfl
    simpa using h
  · have h := (replay_error_fatal_mismatch_nonfatal mismatchServer okPairing []
      none (Json.num 1) [Json.num 7]
      { jsonrpc := {}, result := .ok (Json.num 2), id := .null } rfl rfl rfl).2
      (Json.num 2) rfl (by decide)
    simpa using h

/-- C10: a pairing whose `result` member is absent is silently skipped: the
run over it followed by any remaining pairings is identical to the run over
the remaining pairings alone — no request sent for it, no diagnostic, no
abort. -/
theorem replay_skips_absent_result (server : Request → Except String Response)
    (p : ExamplePairing) (rest : List ExamplePairing)
    (h : p.result = none) :
    replayRun server (p :: rest) = replayRun server rest := by
  simp [replayRun, replayOne, h]

/-- C10 witness: the theorem applied to a concrete result-less pairing in
front of the concrete pairing `m2`. -/
theorem replay_skips_absent_result_witness :
    replayRun constServer
        [{ name := "m0", params := [], result := none }, okPairing] =
      replayRun constServer [okPairing] :=
  replay_skips_absent_result constServer
    { name := "m0", params := [], result := none } [okPairing] rfl

/-- C6: for every pair of buffered bodies, the capture proxy relays exactly
the upstream response body to the caller; it emits at most one pairing, and
exactly one precisely when the request body decodes, the response body
decodes, and the response carries a success value, in which case the
pairing's name is the request's method, its params are the request's
parameters embedded one-for-one, and its result is the embedded success
value; a decode failure on either side or an error response emits zero
pairings. -/
theorem proxy_capture_iff (reqBody respBody : Json) :
    (proxyCapture reqBody respBody).2 = respBody
  ∧ (proxyCapture reqBody respBody).1.length ≤ 1
  ∧ (∀ req resp v, Request.deserialize reqBody = .ok req →
      Response.deserialize respBody = .ok resp → resp.result = .ok v →
      (proxyCapture reqBody respBody).1 =
        [{ name := req.method, params := embedParams req.params,
           result := some { name := none, value := ExampleValue.Embedded v } }])
  ∧ (∀ resp e, Response.deserialize respBody = .ok resp →
      resp.result = .error e → (proxyCapture reqBody respBody).1 = [])
  ∧ (∀ msg, Request.deserialize reqBody = .error msg →
      (proxyCapture reqBody respBody).1 = [])
  ∧ (∀ msg, Response.deserialize respBody = .error msg →
      (proxyCapture reqBody respBody).1 = [])
  ∧ ((proxyCapture reqBody respBody).1 ≠ [] →
      ∃ req resp v, Request.deserialize reqBody = .ok req ∧
        Response.deserialize respBody = .ok resp ∧ resp.result = .ok v) := by
  refine ⟨rfl, ?_, ?_, ?_, ?_, ?_, ?_⟩
  · cases hq : Request.deserialize reqBody with
    | error m1 => simp [proxyCapture, hq]
    | ok req =>
      cases hs : Response.deserialize respBody with
      | error m2 => simp [proxyCapture, hq, hs]
      | ok resp =>
        cases hr : resp.result with
        | ok v => simp [proxyCapture, hq, hs, hr]
        | error e => simp [proxyCapture, hq, hs, hr]
  · intro req resp v hq hs hr
    simp [proxyCapture, hq, hs, hr]
  · intro resp e hs hr
    cases hq : Request.deserialize reqBody with
    | error m1 => simp [proxyCapture, hq]
    | ok req => simp [proxyCapture, hq, hs, hr]
  · intro msg hq
    simp [proxyCapture, hq]
  · intro msg hs
    cases hq : Request.deserialize reqBody with
    | error m1 => simp [proxyCapture, hq]
    | ok req => simp [proxyCapture, hq, hs]
  · intro hne
    cases hq : Request.deserialize reqBody with
    | error m1 => exact absurd (by simp [proxyCapture, hq]) hne
    | ok req =>
      cases hs : Response.deserialize respBody with
      | error m2 => exact absurd (by simp [proxyCapture, hq, hs]) hne
      | ok resp =>
        cases hr : resp.result with
        | ok v => exact ⟨req, resp, v, rfl, rfl, hr⟩
        | error e => exact absurd (by simp [proxyCapture, hq, hs, hr]) hne

/-- C6 witness: the theorem applied to the specification's ping/pong
exchange, yielding exactly the pairing
`{"name":"ping","params":[],"result":{"value":"pong"}}` and relaying the
upstream body unchanged. -/
theorem proxy_capture_iff_witness :
    (proxyCapture pingBody pongBody).1 =
      [{ name := "ping", params := [],
         result := some { name := none, value := ExampleValue.Embedded (Json.str "pong") } }]
  ∧ (proxyCapture pingBody pongBody).2 = pongBody := by
  constructor
  · have h := (proxy_capture_iff pingBody pongBody).2.2.1
      { jsonrpc := {}, method := "ping", params := some (.ByPosition []),
        id := some (.number 5) }
      { jsonrpc := {}, result := .ok (Json.str "pong"), id := .number 5 }
      (Json.str "pong") rfl rfl rfl
    simpa using h
  · exact (proxy_capture_iff pingBody pongBody).1

end Jsonrpcli
